import Mathlib

/-!
Shallow embedding of the gate-widget layer of a PLONK-style proof system:
the Plookup lookup widget (prover key: quotient term, linearisation,
row compression; verifier key: linearisation commitment contribution) and
the twisted-Edwards point-addition widget (verifier key: linearisation
commitment contribution).

Field elements are modelled by an arbitrary commutative ring `F`; dense
polynomials (arkworks `DensePolynomial`) by their coefficient lists;
`Vec::push` on the verifier's scalar/point lists by returning the extended
lists; commitments by an opaque type parameter `C`.
-/

namespace Plonk

variable {F : Type} [CommRing F] {C : Type}

/-- Modelled from the spec: `crate::util::lc` is code of this repository that
is not under src/.  The spec's contract for row compression: given field
elements and a challenge, return their random linear combination by increasing
powers of the challenge, `w0 + zeta*w1 + zeta^2*w2 + zeta^3*w3` for a list of
four, realised as a Horner fold over the list. -/
def lc (values : List F) (challenge : F) : F :=
  values.foldr (fun v acc => v + challenge * acc) 0

/-- Evaluation of a dense-coefficient polynomial by the Horner rule. -/
def polyEval (p : List F) (x : F) : F :=
  p.foldr (fun c acc => c + x * acc) 0

/-- Coefficientwise scalar multiple of a dense polynomial (`&poly * scalar`). -/
def polyScale (p : List F) (c : F) : List F :=
  p.map (fun a => a * c)

/-- Coefficientwise sum of two dense polynomials (`&poly + &poly`). -/
def polyAdd : List F → List F → List F
  | [], q => q
  | p, [] => p
  | a :: p, b :: q => (a + b) :: polyAdd p q

/-- The error type of this layer: its one configuration error, raised when an
evaluation domain of the requested size cannot be constructed for the field's
two-adicity. -/
inductive Error where
  | InvalidEvalDomainSize (log_size_of_group : Nat) (adicity : Nat)
deriving DecidableEq

/-- Number of trailing zero bits of a natural number below `2 ^ 64`
(`usize::trailing_zeros`, 64 for zero): the position of the lowest set bit. -/
def trailingZeros (n : Nat) : Nat :=
  (((List.range 64).find? fun k => (n >>> k) &&& 1 == 1).getD 64)

/-- Modelled from the spec: the external evaluation-domain abstraction
(`GeneralEvaluationDomain::new`, an excluded collaborator) supports
"construction of a domain of a given power-of-two size and size query".
Construction succeeds exactly when the requested size is a power of two whose
exponent is at most the field's two-adicity, and the constructed domain then
has the requested size. -/
def domainNew (twoAdicity size : Nat) : Option Nat :=
  if (List.range (twoAdicity + 1)).any fun k => size == 2 ^ k then
    Option.some size
  else
    Option.none

namespace Lookup

/-- Lookup gates prover key: the lookup selector in coefficient form paired
with its evaluation form, and the four lookup-table columns (MultiSets of
field elements, modelled as their element lists). -/
structure ProverKey (F : Type) where
  q_lookup : List F × List F
  table_1 : List F
  table_2 : List F
  table_3 : List F
  table_4 : List F

/-- Compresses a row of four wire values into a single field element by a
random linear combination with powers of zeta. -/
def compress (w_l w_r w_o w_4 zeta : F) : F :=
  lc [w_l, w_r, w_o, w_4] zeta

/-- Evaluation of the lookup portion of the quotient polynomial at one point
of the extended domain; `index` reads the stored selector evaluation. -/
def ProverKey.compute_quotient_i (self : ProverKey F) (index : Nat)
    (w_l_i w_r_i w_o_i w_4_i f_i table_i table_i_next h1_i h1_i_next h2_i
      z2_i z2_i_next l1_i delta epsilon zeta lookup_sep : F) : F :=
  let q_lookup_i := self.q_lookup.2.getD index 0
  let compressed_tuple := compress w_l_i w_r_i w_o_i w_4_i zeta
  let lookup_sep_sq := lookup_sep * lookup_sep
  let lookup_sep_cu := lookup_sep_sq * lookup_sep
  let one_plus_delta := delta + 1
  let epsilon_one_plus_delta := epsilon * one_plus_delta
  let a := q_lookup_i * (compressed_tuple - f_i) * lookup_sep
  let b :=
    let b_1 := epsilon + f_i
    let b_2 := epsilon_one_plus_delta + table_i + delta * table_i_next
    z2_i * one_plus_delta * b_1 * b_2 * lookup_sep_sq
  let c :=
    let c_1 := epsilon_one_plus_delta + h1_i + delta * h2_i
    let c_2 := epsilon_one_plus_delta + h2_i + delta * h1_i_next ;
    -z2_i_next * c_1 * c_2 * lookup_sep_sq
  let d := (z2_i - 1) * l1_i * lookup_sep_cu
  a + b + c + d

/-- Lookup portion of the quotient polynomial over the extended (4x) domain.
The base domain is given by its size, the field by its two-adicity; the
extended domain of size `4 * domainSize` is built first (the one fallible
step), then the quotient term is computed at each of its points, reading the
next-row values of table, h1 and z2 at index `i + 4`. -/
def ProverKey.compute_lookup_quotient_term (self : ProverKey F)
    (twoAdicity domainSize : Nat)
    (wl_eval_4n wr_eval_4n wo_eval_4n w4_eval_4n f_eval_4n table_eval_4n
      h1_eval_4n h2_eval_4n z2_eval_4n l1_eval_4n : List F)
    (delta epsilon zeta lookup_sep : F) : Except Error (List F) :=
  match domainNew twoAdicity (4 * domainSize) with
  | Option.none =>
      Except.error
        (Error.InvalidEvalDomainSize (trailingZeros (4 * domainSize)) twoAdicity)
  | Option.some n4 =>
      Except.ok ((List.range n4).map fun i =>
        self.compute_quotient_i i
          (wl_eval_4n.getD i 0) (wr_eval_4n.getD i 0) (wo_eval_4n.getD i 0)
          (w4_eval_4n.getD i 0) (f_eval_4n.getD i 0)
          (table_eval_4n.getD i 0) (table_eval_4n.getD (i + 4) 0)
          (h1_eval_4n.getD i 0) (h1_eval_4n.getD (i + 4) 0)
          (h2_eval_4n.getD i 0)
          (z2_eval_4n.getD i 0) (z2_eval_4n.getD (i + 4) 0)
          (l1_eval_4n.getD i 0)
          delta epsilon zeta lookup_sep)

/-- Linearisation contribution of the lookup gates: the same four terms as the
quotient, with `z2` and `h1` left as full polynomials multiplied by scalar
coefficients built from the single-point evaluations, and the selector in its
coefficient form. -/
def ProverKey.compute_linearisation (self : ProverKey F)
    (l1_eval a_eval b_eval c_eval d_eval f_eval table_eval table_next_eval
      h1_eval h2_eval z2_next_eval delta epsilon zeta : F)
    (z2_poly h1_poly : List F) (lookup_separation_challenge : F) : List F :=
  let a :=
    let a_0 := compress a_eval b_eval c_eval d_eval zeta
    polyScale self.q_lookup.1 ((a_0 - f_eval) * lookup_separation_challenge)
  let lookup_sep_sq := lookup_separation_challenge * lookup_separation_challenge
  let lookup_sep_cu := lookup_separation_challenge * lookup_sep_sq
  let one_plus_delta := delta + 1
  let epsilon_one_plus_delta := epsilon * one_plus_delta
  let b :=
    let b_0 := epsilon + f_eval
    let b_1 := epsilon_one_plus_delta + table_eval + delta * table_next_eval
    polyScale z2_poly (one_plus_delta * b_0 * b_1 * lookup_sep_sq)
  let c :=
    let c_0 := -z2_next_eval * lookup_sep_sq
    let c_1 := epsilon_one_plus_delta + h2_eval + delta * h1_eval
    polyScale h1_poly (c_0 * c_1)
  let d := polyScale z2_poly (l1_eval * lookup_sep_cu)
  polyAdd (polyAdd (polyAdd a b) c) d

/-- Modelled from the spec: the wire part of the proof-supplied single-point
evaluations (`linearisation_poly::ProofEvaluations` is not under src/; the
spec lists the named fields). -/
structure WireEvaluations (F : Type) where
  a_eval : F
  b_eval : F
  c_eval : F
  d_eval : F

/-- Modelled from the spec: the lookup part of the proof-supplied single-point
evaluations. -/
structure LookupEvaluations (F : Type) where
  f_eval : F
  table_eval : F
  table_next_eval : F
  h1_eval : F
  h2_eval : F
  z2_next_eval : F
  q_lookup_eval : F

/-- Modelled from the spec: the proof-supplied single-point evaluations, as
read by the lookup widget. -/
structure ProofEvaluations (F : Type) where
  wire_evals : WireEvaluations F
  lookup_evals : LookupEvaluations F

/-- Lookup verifier key: the commitment to the lookup selector. -/
structure VerifierKey (F : Type) (C : Type) where
  q_lookup : C

/-- Verifier-side linearisation commitment contribution of the lookup gates:
pushes three scalars onto the scalars list, and the commitments of q_lookup,
z2 and h1 onto the points list. -/
def VerifierKey.compute_linearisation_commitment (self : VerifierKey F C)
    (scalars : List F) (points : List C) (evaluations : ProofEvaluations F)
    (challenges : F × F × F) (l1_eval : F) (z2_comm h1_comm : C) :
    List F × List C :=
  let delta := challenges.1
  let epsilon := challenges.2.1
  let zeta := challenges.2.2
  let q_lookup_eval := evaluations.lookup_evals.q_lookup_eval
  let f := q_lookup_eval *
    (lc [evaluations.wire_evals.a_eval, evaluations.wire_evals.b_eval,
        evaluations.wire_evals.c_eval, evaluations.wire_evals.d_eval] zeta
      - evaluations.lookup_evals.f_eval)
  let one_plus_delta := 1 + delta
  let epsilon_one_plus_delta := epsilon * one_plus_delta
  let q_lookup_eval_sq := q_lookup_eval * q_lookup_eval
  let q_lookup_eval_cu := q_lookup_eval_sq * q_lookup_eval
  let z :=
    let z_0 := epsilon + evaluations.lookup_evals.f_eval
    let z_1 := epsilon_one_plus_delta + evaluations.lookup_evals.table_eval
      + delta * evaluations.lookup_evals.table_next_eval
    let z_2 := l1_eval * q_lookup_eval_cu
    one_plus_delta * z_0 * z_1 * q_lookup_eval_sq + z_2
  let w :=
    let w_0 := -evaluations.lookup_evals.z2_next_eval * q_lookup_eval_cu
    let w_1 := epsilon_one_plus_delta + evaluations.lookup_evals.h2_eval
      + delta * evaluations.lookup_evals.h1_eval
    w_0 * w_1
  (scalars ++ [f, z, w], points ++ [self.q_lookup, z2_comm, h1_comm])

end Lookup

namespace CurveAddition

/-- Modelled from the spec: the flat proof-evaluations structure read by the
point-addition widget (wire evaluations `a, b, c, d` and the next-row shifts
of `a`, `b` and `d`). -/
structure ProofEvaluations (F : Type) where
  a_eval : F
  a_next_eval : F
  b_eval : F
  b_next_eval : F
  c_eval : F
  d_eval : F
  d_next_eval : F

/-- Point-addition verifier key: the commitment to the group-addition
selector. -/
structure VerifierKey (F : Type) (C : Type) where
  q_variable_group_add : C

/-- Verifier-side linearisation commitment contribution of the twisted-Edwards
point-addition gate; `coeff_d` is the curve parameter `P::COEFF_D`. -/
def VerifierKey.compute_linearisation_commitment (self : VerifierKey F C)
    (coeff_d : F) (curve_add_separation_challenge : F)
    (scalars : List F) (points : List C)
    (evaluations : ProofEvaluations F) : List F × List C :=
  let kappa := curve_add_separation_challenge * curve_add_separation_challenge
  let x_1 := evaluations.a_eval
  let x_3 := evaluations.a_next_eval
  let y_1 := evaluations.b_eval
  let y_3 := evaluations.b_next_eval
  let x_2 := evaluations.c_eval
  let y_2 := evaluations.d_eval
  let x1_y2 := evaluations.d_next_eval
  let xy_consistency := x_1 * y_2 - x1_y2
  let y1_x2 := y_1 * x_2
  let y1_y2 := y_1 * y_2
  let x1_x2 := x_1 * x_2
  let x3_lhs := x1_y2 + y1_x2
  let x3_rhs := x_3 + x_3 * (coeff_d * x1_y2 * y1_x2)
  let x3_consistency := (x3_lhs - x3_rhs) * kappa
  let y3_lhs := y1_y2 + x1_x2
  let y3_rhs := y_3 - y_3 * coeff_d * x1_y2 * y1_x2
  let y3_consistency := (y3_lhs - y3_rhs) * (kappa * kappa)
  let identity := xy_consistency + x3_consistency + y3_consistency
  (scalars ++ [identity * curve_add_separation_challenge],
    points ++ [self.q_variable_group_add])

end CurveAddition

/-- The slice indices read while computing the lookup quotient term over an
extended domain of `n4` points: for each `i` below `n4`,
`compute_lookup_quotient_term` reads index `i` of every evaluation slice and
index `i + 4` of the table, h1 and z2 slices, and `compute_quotient_i` reads
index `i` of the stored selector evaluations (of length `lq`).  The predicate
states that every one of those accesses is within the slice's length. -/
def quotientTermAccessInBounds
    (n4 lq lwl lwr lwo lw4 lf lt lh1 lh2 lz2 ll1 : Nat) : Prop :=
  ∀ i, i < n4 →
    i < lwl ∧ i < lwr ∧ i < lwo ∧ i < lw4 ∧ i < lf ∧
    i < lt ∧ i + 4 < lt ∧ i < lh1 ∧ i + 4 < lh1 ∧ i < lh2 ∧
    i < lz2 ∧ i + 4 < lz2 ∧ i < ll1 ∧ i < lq

/-! ## Theorems -/

/-- C7: for all field elements and every challenge zeta,
`compress (w0, w1, w2, w3, zeta)` equals `w0 + zeta*w1 + zeta^2*w2 + zeta^3*w3`;
in particular it is affine in each input and `compress (a, b, c, d, 0) = a`. -/
theorem compress_affine_form (w0 w1 w2 w3 zeta a b c d t : F) :
    Lookup.compress w0 w1 w2 w3 zeta
        = w0 + zeta * w1 + zeta ^ 2 * w2 + zeta ^ 3 * w3
      ∧ Lookup.compress a b c d 0 = a
      ∧ Lookup.compress (w0 + t) w1 w2 w3 zeta
        = Lookup.compress w0 w1 w2 w3 zeta + t
      ∧ Lookup.compress w0 (w1 + t) w2 w3 zeta
        = Lookup.compress w0 w1 w2 w3 zeta + zeta * t
      ∧ Lookup.compress w0 w1 (w2 + t) w3 zeta
        = Lookup.compress w0 w1 w2 w3 zeta + zeta ^ 2 * t
      ∧ Lookup.compress w0 w1 w2 (w3 + t) zeta
        = Lookup.compress w0 w1 w2 w3 zeta + zeta ^ 3 * t := by
  refine ⟨?_, ?_, ?_, ?_, ?_, ?_⟩ <;>
    simp only [Lookup.compress, lc, List.foldr_cons, List.foldr_nil] <;> ring

/-- C2: `compute_quotient_i` returns exactly the four-term Plookup combination
`T = α*q_lookup[i]*(compress(wires, zeta) - f)`
`+ α^2*z2[i]*(1+δ)*(ε+f)*(ε(1+δ)+t[i]+δ*t[i+1])`
`- α^2*z2[i+1]*(ε(1+δ)+h1[i]+δ*h2[i])*(ε(1+δ)+h2[i]+δ*h1[i+1])`
`+ α^3*(z2[i]-1)*L1[i]`, where `α` is the lookup separation challenge and
`q_lookup[i]` is the i-th stored selector evaluation. -/
theorem compute_quotient_i_closed_form (pk : Lookup.ProverKey F) (i : Nat)
    (h : i < pk.q_lookup.2.length)
    (w_l_i w_r_i w_o_i w_4_i f_i table_i table_i_next h1_i h1_i_next h2_i
      z2_i z2_i_next l1_i delta epsilon zeta lookup_sep : F) :
    pk.compute_quotient_i i w_l_i w_r_i w_o_i w_4_i f_i table_i table_i_next
        h1_i h1_i_next h2_i z2_i z2_i_next l1_i delta epsilon zeta lookup_sep
      = lookup_sep * pk.q_lookup.2.get ⟨i, h⟩
            * (Lookup.compress w_l_i w_r_i w_o_i w_4_i zeta - f_i)
        + lookup_sep ^ 2 * z2_i * (1 + delta) * (epsilon + f_i)
            * (epsilon * (1 + delta) + table_i + delta * table_i_next)
        - lookup_sep ^ 2 * z2_i_next
            * (epsilon * (1 + delta) + h1_i + delta * h2_i)
            * (epsilon * (1 + delta) + h2_i + delta * h1_i_next)
        + lookup_sep ^ 3 * (z2_i - 1) * l1_i := by
  simp only [Lookup.ProverKey.compute_quotient_i,
    List.getD_eq_get pk.q_lookup.2 0 h]
  ring

/-- C2 witness: the closed form at a concrete input over `ZMod 101`. -/
theorem compute_quotient_i_closed_form_witness :
    (0 < ([(2 : ZMod 101)]).length) ∧
      Lookup.ProverKey.compute_quotient_i
          (⟨([], [2]), [], [], [], []⟩ : Lookup.ProverKey (ZMod 101)) 0
          3 4 5 6 7 8 9 10 11 12 13 14 15 16 17 18 19
        = 19 * 2 * (Lookup.compress 3 4 5 6 18 - 7)
          + 19 ^ 2 * 13 * (1 + 16) * (17 + 7) * (17 * (1 + 16) + 8 + 16 * 9)
          - 19 ^ 2 * 14 * (17 * (1 + 16) + 10 + 16 * 12)
              * (17 * (1 + 16) + 12 + 16 * 11)
          + 19 ^ 3 * (13 - 1) * 15 :=
  ⟨by decide,
    compute_quotient_i_closed_form
      (⟨([], [2]), [], [], [], []⟩ : Lookup.ProverKey (ZMod 101)) 0 (by decide)
      3 4 5 6 7 8 9 10 11 12 13 14 15 16 17 18 19⟩

/-- C8: the fourth summand `(z2_i - 1) * L1_i * α^3` of `compute_quotient_i`
vanishes whenever `L1_i = 0` or `z2_i = 1`: the result then equals the value
with `L1_i` replaced by `0`, i.e. the sum of the first three summands alone,
so with `z2` equal to 1 at the first domain point and `L1` the Lagrange
indicator of that point the summand vanishes at every other index. -/
theorem quotient_fourth_summand_vanishes (pk : Lookup.ProverKey F) (i : Nat)
    (w_l_i w_r_i w_o_i w_4_i f_i table_i table_i_next h1_i h1_i_next h2_i
      z2_i z2_i_next l1_i delta epsilon zeta lookup_sep : F)
    (h : l1_i = 0 ∨ z2_i = 1) :
    pk.compute_quotient_i i w_l_i w_r_i w_o_i w_4_i f_i table_i table_i_next
        h1_i h1_i_next h2_i z2_i z2_i_next l1_i delta epsilon zeta lookup_sep
      = pk.compute_quotient_i i w_l_i w_r_i w_o_i w_4_i f_i table_i
          table_i_next h1_i h1_i_next h2_i z2_i z2_i_next 0 delta epsilon zeta
          lookup_sep := by
  rcases h with h | h <;> subst h <;>
    simp only [Lookup.ProverKey.compute_quotient_i] <;> ring

/-- C8 witness: the fourth summand vanishes at a concrete input with
`z2_i = 1` over `ZMod 101`. -/
theorem quotient_fourth_summand_vanishes_witness :
    (((15 : ZMod 101) = 0 ∨ (1 : ZMod 101) = 1)) ∧
      Lookup.ProverKey.compute_quotient_i
          (⟨([], [2]), [], [], [], []⟩ : Lookup.ProverKey (ZMod 101)) 0
          3 4 5 6 7 8 9 10 11 12 1 14 15 16 17 18 19
        = Lookup.ProverKey.compute_quotient_i
            (⟨([], [2]), [], [], [], []⟩ : Lookup.ProverKey (ZMod 101)) 0
            3 4 5 6 7 8 9 10 11 12 1 14 0 16 17 18 19 :=
  ⟨Or.inr rfl,
    quotient_fourth_summand_vanishes
      (⟨([], [2]), [], [], [], []⟩ : Lookup.ProverKey (ZMod 101)) 0
      3 4 5 6 7 8 9 10 11 12 1 14 15 16 17 18 19 (Or.inr rfl)⟩

/-- C5: the point-addition verifier key appends exactly one (scalar,
commitment) pair: the commitment is `q_variable_group_add` and the scalar is
`((x1*y2 - x1y2) + κ*((x1y2 + y1*x2) - x3*(1 + d*x1y2*(y1*x2)))
+ κ^2*((y1*y2 + x1*x2) - y3*(1 - d*x1y2*(y1*x2)))) * challenge` with
`κ = challenge^2`, reading `x1, x3, y1, y3, x2, y2, x1y2` from the proof
evaluations `a, a-next, b, b-next, c, d, d-next`. -/
theorem curve_addition_commitment_scalar (vk : CurveAddition.VerifierKey F C)
    (coeff_d sep : F) (scalars : List F) (points : List C)
    (e : CurveAddition.ProofEvaluations F) :
    vk.compute_linearisation_commitment coeff_d sep scalars points e
      = (scalars ++
          [((e.a_eval * e.d_eval - e.d_next_eval)
            + sep ^ 2 * ((e.d_next_eval + e.b_eval * e.c_eval)
              - e.a_next_eval
                * (1 + coeff_d * e.d_next_eval * (e.b_eval * e.c_eval)))
            + (sep ^ 2) ^ 2 * ((e.b_eval * e.d_eval + e.a_eval * e.c_eval)
              - e.b_next_eval
                * (1 - coeff_d * e.d_next_eval * (e.b_eval * e.c_eval))))
            * sep],
        points ++ [vk.q_variable_group_add]) := by
  simp only [CurveAddition.VerifierKey.compute_linearisation_commitment,
    Prod.mk.injEq, List.append_cancel_left_eq, List.cons.injEq, and_true]
  ring

/-- C4: the lookup verifier key's `compute_linearisation_commitment` appends
exactly three (scalar, commitment) pairs — the commitments being, in order,
the q_lookup selector commitment, the z2 commitment and the h1 commitment —
leaves every pre-existing entry of the scalars and points lists unchanged,
and grows both lists by the same amount. -/
theorem lookup_commitment_frame (vk : Lookup.VerifierKey F C)
    (scalars : List F) (points : List C) (e : Lookup.ProofEvaluations F)
    (delta epsilon zeta l1_eval : F) (z2_comm h1_comm : C) :
    (vk.compute_linearisation_commitment scalars points e (delta, epsilon, zeta)
          l1_eval z2_comm h1_comm).1.take scalars.length = scalars
      ∧ (vk.compute_linearisation_commitment scalars points e
          (delta, epsilon, zeta) l1_eval z2_comm h1_comm).2.take points.length
        = points
      ∧ (vk.compute_linearisation_commitment scalars points e
          (delta, epsilon, zeta) l1_eval z2_comm h1_comm).1.length
        = scalars.length + 3
      ∧ (vk.compute_linearisation_commitment scalars points e
          (delta, epsilon, zeta) l1_eval z2_comm h1_comm).2.length
        = points.length + 3
      ∧ (vk.compute_linearisation_commitment scalars points e
          (delta, epsilon, zeta) l1_eval z2_comm h1_comm).2.drop points.length
        = [vk.q_lookup, z2_comm, h1_comm] := by
  refine ⟨?_, ?_, ?_, ?_, ?_⟩ <;>
    simp [Lookup.VerifierKey.compute_linearisation_commitment,
      List.take_left, List.drop_left]

/-- C10: the scalars appended by the lookup verifier key are fully determined
by (delta, epsilon, zeta), l1_eval and the proof-supplied evaluations — the
routine takes no lookup separation challenge — and the squared and cubed
factors playing the separation role in its z2 and h1 scalars are powers of the
proof-supplied q_lookup evaluation. -/
theorem lookup_commitment_scalars_determined (vk : Lookup.VerifierKey F C)
    (scalars : List F) (points : List C) (e : Lookup.ProofEvaluations F)
    (delta epsilon zeta l1_eval : F) (z2_comm h1_comm : C) :
    (vk.compute_linearisation_commitment scalars points e (delta, epsilon, zeta)
          l1_eval z2_comm h1_comm).1
      = scalars ++
        [e.lookup_evals.q_lookup_eval
            * (lc [e.wire_evals.a_eval, e.wire_evals.b_eval, e.wire_evals.c_eval,
                e.wire_evals.d_eval] zeta
              - e.lookup_evals.f_eval),
          (1 + delta) * (epsilon + e.lookup_evals.f_eval)
              * (epsilon * (1 + delta) + e.lookup_evals.table_eval
                + delta * e.lookup_evals.table_next_eval)
              * e.lookup_evals.q_lookup_eval ^ 2
            + l1_eval * e.lookup_evals.q_lookup_eval ^ 3,
          -(e.lookup_evals.z2_next_eval * e.lookup_evals.q_lookup_eval ^ 3)
            * (epsilon * (1 + delta) + e.lookup_evals.h2_eval
              + delta * e.lookup_evals.h1_eval)] := by
  simp only [Lookup.VerifierKey.compute_linearisation_commitment,
    List.append_cancel_left_eq, List.cons.injEq, and_true]
  refine ⟨by ring, by ring, by ring⟩

/-- C6: `compute_lookup_quotient_term` fails exactly when the extended
evaluation domain of size `4 * domainSize` cannot be constructed for the
field's two-adicity, and it then returns the typed error
`InvalidEvalDomainSize` carrying the log of the requested size and the
two-adicity; when the domain is constructible there is no error. -/
theorem compute_lookup_quotient_term_error_iff (pk : Lookup.ProverKey F)
    (twoAdicity domainSize : Nat) (wl wr wo w4 f t h1 h2 z2 l1 : List F)
    (delta epsilon zeta lookup_sep : F) :
    ((pk.compute_lookup_quotient_term twoAdicity domainSize wl wr wo w4 f t
          h1 h2 z2 l1 delta epsilon zeta lookup_sep).toOption = Option.none
        ↔ domainNew twoAdicity (4 * domainSize) = Option.none)
      ∧ (pk.compute_lookup_quotient_term twoAdicity domainSize wl wr wo w4 f t
            h1 h2 z2 l1 delta epsilon zeta lookup_sep
          = Except.error (Error.InvalidEvalDomainSize
              (trailingZeros (4 * domainSize)) twoAdicity)
        ↔ domainNew twoAdicity (4 * domainSize) = Option.none) := by
  rcases hd : domainNew twoAdicity (4 * domainSize) with _ | n4 <;>
    simp [Lookup.ProverKey.compute_lookup_quotient_term, hd, Except.toOption]

/-- A successfully constructed evaluation domain has the requested size. -/
theorem domainNew_size (t s n : Nat) (h : domainNew t s = Option.some n) :
    n = s := by
  unfold domainNew at h
  split at h
  · exact (Option.some.inj h).symm
  · exact absurd h (by simp)

/-- C3: on success, `compute_lookup_quotient_term` returns a vector of length
exactly `4 * domainSize` whose i-th entry is `compute_quotient_i` applied to
the i-th entries of the evaluation slices, with the next-row values of table,
h1 and z2 taken at index `i + 4` — a shift by the domain-extension factor 4,
not by 1. -/
theorem compute_lookup_quotient_term_entries (pk : Lookup.ProverKey F)
    (twoAdicity domainSize : Nat) (wl wr wo w4 f t h1 h2 z2 l1 : List F)
    (delta epsilon zeta lookup_sep : F) (out : List F)
    (h : pk.compute_lookup_quotient_term twoAdicity domainSize wl wr wo w4 f t
        h1 h2 z2 l1 delta epsilon zeta lookup_sep = Except.ok out) :
    out.length = 4 * domainSize ∧
      out = (List.range (4 * domainSize)).map fun i =>
        pk.compute_quotient_i i (wl.getD i 0) (wr.getD i 0) (wo.getD i 0)
          (w4.getD i 0) (f.getD i 0) (t.getD i 0) (t.getD (i + 4) 0)
          (h1.getD i 0) (h1.getD (i + 4) 0) (h2.getD i 0) (z2.getD i 0)
          (z2.getD (i + 4) 0) (l1.getD i 0) delta epsilon zeta lookup_sep := by
  rcases hd : domainNew twoAdicity (4 * domainSize) with _ | n4
  · rw [Lookup.ProverKey.compute_lookup_quotient_term, hd] at h
    exact absurd h (by simp)
  · obtain rfl : n4 = 4 * domainSize := domainNew_size _ _ _ hd
    rw [Lookup.ProverKey.compute_lookup_quotient_term, hd] at h
    obtain rfl : _ = out := Except.ok.inj h
    exact ⟨by simp, rfl⟩

/-- C3 witness: a concrete success over `ZMod 101` with base-domain size 1 and
two-adicity 2. -/
theorem compute_lookup_quotient_term_entries_witness :
    (Lookup.ProverKey.compute_lookup_quotient_term
        (⟨([], [0, 0, 0, 0]), [], [], [], []⟩ : Lookup.ProverKey (ZMod 101))
        2 1 [0, 0, 0, 0] [0, 0, 0, 0] [0, 0, 0, 0] [0, 0, 0, 0] [0, 0, 0, 0]
        [0, 0, 0, 0, 0, 0, 0, 0] [0, 0, 0, 0, 0, 0, 0, 0]
        [0, 0, 0, 0, 0, 0, 0, 0] [0, 0, 0, 0, 0, 0, 0, 0] [0, 0, 0, 0]
        0 0 0 0 = Except.ok [0, 0, 0, 0]) ∧
      (([0, 0, 0, 0] : List (ZMod 101)).length = 4 * 1 ∧
        ([0, 0, 0, 0] : List (ZMod 101)) = (List.range (4 * 1)).map fun i =>
          Lookup.ProverKey.compute_quotient_i
            (⟨([], [0, 0, 0, 0]), [], [], [], []⟩ : Lookup.ProverKey (ZMod 101))
            i (List.getD [0, 0, 0, 0] i 0) (List.getD [0, 0, 0, 0] i 0)
            (List.getD [0, 0, 0, 0] i 0) (List.getD [0, 0, 0, 0] i 0)
            (List.getD [0, 0, 0, 0] i 0)
            (List.getD [0, 0, 0, 0, 0, 0, 0, 0] i 0)
            (List.getD [0, 0, 0, 0, 0, 0, 0, 0] (i + 4) 0)
            (List.getD [0, 0, 0, 0, 0, 0, 0, 0] i 0)
            (List.getD [0, 0, 0, 0, 0, 0, 0, 0] (i + 4) 0)
            (List.getD [0, 0, 0, 0, 0, 0, 0, 0] i 0)
            (List.getD [0, 0, 0, 0, 0, 0, 0, 0] i 0)
            (List.getD [0, 0, 0, 0, 0, 0, 0, 0] (i + 4) 0)
            (List.getD [0, 0, 0, 0] i 0) 0 0 0 0) :=
  ⟨rfl,
    compute_lookup_quotient_term_entries
      (⟨([], [0, 0, 0, 0]), [], [], [], []⟩ : Lookup.ProverKey (ZMod 101))
      2 1 [0, 0, 0, 0] [0, 0, 0, 0] [0, 0, 0, 0] [0, 0, 0, 0] [0, 0, 0, 0]
      [0, 0, 0, 0, 0, 0, 0, 0] [0, 0, 0, 0, 0, 0, 0, 0]
      [0, 0, 0, 0, 0, 0, 0, 0] [0, 0, 0, 0, 0, 0, 0, 0] [0, 0, 0, 0]
      0 0 0 0 [0, 0, 0, 0] rfl⟩

/-- C9: every slice access of `compute_lookup_quotient_term` over the extended
domain of `4 * n` points is in bounds once the table, h1 and z2 slices have
length at least `4 * n + 4` and the wire, f, h2, l1 and stored selector
evaluation slices have length at least `4 * n`. -/
theorem quotient_access_in_bounds (n lq lwl lwr lwo lw4 lf lt lh1 lh2 lz2 ll1 : Nat)
    (hwl : 4 * n ≤ lwl) (hwr : 4 * n ≤ lwr) (hwo : 4 * n ≤ lwo)
    (hw4 : 4 * n ≤ lw4) (hf : 4 * n ≤ lf) (ht : 4 * n + 4 ≤ lt)
    (hh1 : 4 * n + 4 ≤ lh1) (hh2 : 4 * n ≤ lh2) (hz2 : 4 * n + 4 ≤ lz2)
    (hl1 : 4 * n ≤ ll1) (hq : 4 * n ≤ lq) :
    quotientTermAccessInBounds (4 * n) lq lwl lwr lwo lw4 lf lt lh1 lh2 lz2 ll1 := by
  intro i hi
  refine ⟨?_, ?_, ?_, ?_, ?_, ?_, ?_, ?_, ?_, ?_, ?_, ?_, ?_, ?_⟩ <;> omega

/-- C9 witness: in-bounds accesses at concrete lengths for a base domain of
size 1. -/
theorem quotient_access_in_bounds_witness :
    4 * 1 ≤ 4 ∧ 4 * 1 + 4 ≤ 8 ∧
      quotientTermAccessInBounds (4 * 1) 4 4 4 4 4 4 8 8 4 8 4 :=
  ⟨by decide, by decide,
    quotient_access_in_bounds 1 4 4 4 4 4 4 8 8 4 8 4
      (by decide) (by decide) (by decide) (by decide) (by decide) (by decide)
      (by decide) (by decide) (by decide) (by decide) (by decide)⟩

/-- C1: the lookup widget's verifier-side commitment contribution does not
agree with the prover-side linearisation.  At the concrete input below (all
evaluations zero except `h2_eval = 1` and `z2_next_eval = 1`, all challenges
zero except the lookup separation challenge 1, `z2_poly` the zero polynomial
and `h1_poly` the constant 1), the three pushed scalars formally paired with
the values of q_lookup, z2 and h1 at the challenge point 0 sum to 0, while the
polynomial returned by `compute_linearisation` evaluates to -1 there: the
verifier scalars use powers of the proof-supplied q_lookup evaluation where
the prover uses powers of the lookup separation challenge, and a cube where
the prover has a square. -/
theorem lookup_linearisation_commitment_disagreement :
    (fun r : List (ZMod 101) × List Nat =>
        r.1.getD 0 0 * polyEval ([] : List (ZMod 101)) 0
          + r.1.getD 1 0 * polyEval ([] : List (ZMod 101)) 0
          + r.1.getD 2 0 * polyEval [1] 0)
      (Lookup.VerifierKey.compute_linearisation_commitment
        (⟨0⟩ : Lookup.VerifierKey (ZMod 101) Nat) [] []
        ⟨⟨0, 0, 0, 0⟩, ⟨0, 0, 0, 0, 1, 1, 0⟩⟩ (0, 0, 0) 0 1 2)
      ≠ polyEval
          (Lookup.ProverKey.compute_linearisation
            (⟨([], []), [], [], [], []⟩ : Lookup.ProverKey (ZMod 101))
            0 0 0 0 0 0 0 0 0 1 1 0 0 0 [] [1] 1)
          0 := by
  decide

end Plonk
